import Mathlib

/-!
Verification development for the toolset subsystem of pydantic-ai:
the dynamic toolset state machine (`toolsets/_dynamic.py`), the Temporal
durable function-toolset adapter (`durable_exec/temporal/_function_toolset.py`)
and the JSON decode-error formatter (`_json_error_formatter.py`).

Stateful async Python methods are embedded as pure Lean functions with
explicit state passing; every effectful sub-operation (child enter or exit,
factory invocation, child get_tools) is given by an oracle returning
`Except`, and the embedding also records the ordered trace of the
sub-operations it performed, so that ordering claims can be stated.
-/

/-! ## Dynamic toolset: operational model of `DynamicToolset.get_tools`

`C` is the type of child toolsets (abstract: the dynamic node treats the
child through its interface only), `E` the type of raised exceptions.
Tool mappings are modelled as association lists from tool name to a tool
identifier. -/

/-- A tool mapping as returned by `get_tools`: name to tool descriptor id. -/
abbrev ToolMapping : Type := List (String × Nat)

/-- Observable sub-operations performed by `DynamicToolset.get_tools`,
in the order the Python coroutine awaits them. -/
inductive Ev (C : Type) where
  | exitChild (c : C)
  | factoryCall
  | enterChild (c : C)
  | childGetTools (c : C)
deriving DecidableEq, Repr

/-- Oracle giving the behaviour of the effectful operations on child
toolsets: `aexit` models `child.__aexit__()`, `aenter` models
`child.__aenter__()`, `getTools` models `child.get_tools(ctx)` for the
fixed context of one call. An `.error` value models the operation raising. -/
structure ChildOps (C E : Type) where
  aexit : C → Except E Unit
  aenter : C → Except E Unit
  getTools : C → Except E ToolMapping

/-- The mutable state of a `DynamicToolset` together with its
`per_run_step` configuration flag: `toolset` is the `_toolset` attribute
(`none` models Python `None`), `runStep` is the `_run_step` attribute. -/
structure DynST (C : Type) where
  perRunStep : Bool
  toolset : Option C
  runStep : Option Nat
deriving DecidableEq, Repr

/-- Result of one `get_tools` call: the value returned or exception raised,
the state of the node afterwards, and the trace of sub-operations. -/
structure GetToolsResult (C E : Type) where
  result : Except E ToolMapping
  state : DynST C
  trace : List (Ev C)

/-- Embedding of `DynamicToolset.get_tools` (`_dynamic.py` lines 67-85).
The guard mirrors `self._toolset is None or (self.per_run_step and
ctx.run_step != self._run_step)`; note that `ctx.run_step != self._run_step`
is true in Python whenever `_run_step` is `None`. On the rebuild path the
old child (if any) is exited first; then the factory runs (an awaited
asynchronous factory raising is the same `.error` outcome); a `none`
factory result is stored as is; otherwise the new child is entered before
being stored. An exception at any point propagates and leaves the
attributes exactly as they were, because the assignments on lines 79-80
only run after every await has succeeded. -/
def DynST.get_tools {C E : Type} [DecidableEq C] (d : DynST C) (ops : ChildOps C E)
    (factory : Except E (Option C)) (step : Nat) : GetToolsResult C E :=
  if d.toolset = none ∨ (d.perRunStep = true ∧ ¬ d.runStep = some step) then
    match d.toolset with
    | some old =>
      match ops.aexit old with
      | .error e => ⟨.error e, d, [.exitChild old]⟩
      | .ok _ =>
        match factory with
        | .error e => ⟨.error e, d, [.exitChild old, .factoryCall]⟩
        | .ok none =>
          ⟨.ok [], { d with toolset := none, runStep := some step },
            [.exitChild old, .factoryCall]⟩
        | .ok (some c) =>
          match ops.aenter c with
          | .error e => ⟨.error e, d, [.exitChild old, .factoryCall, .enterChild c]⟩
          | .ok _ =>
            ⟨ops.getTools c, { d with toolset := some c, runStep := some step },
              [.exitChild old, .factoryCall, .enterChild c, .childGetTools c]⟩
    | none =>
      match factory with
      | .error e => ⟨.error e, d, [.factoryCall]⟩
      | .ok none =>
        ⟨.ok [], { d with toolset := none, runStep := some step }, [.factoryCall]⟩
      | .ok (some c) =>
        match ops.aenter c with
        | .error e => ⟨.error e, d, [.factoryCall, .enterChild c]⟩
        | .ok _ =>
          ⟨ops.getTools c, { d with toolset := some c, runStep := some step },
            [.factoryCall, .enterChild c, .childGetTools c]⟩
  else
    match d.toolset with
    | none => ⟨.ok [], d, []⟩
    | some c => ⟨ops.getTools c, d, [.childGetTools c]⟩

/-- The spec state `Empty`: no bound child. (The code may leave `_run_step`
set while `_toolset` is `None`; the spec state machine distinguishes only
whether a child is bound.) -/
def DynST.isEmpty {C : Type} (d : DynST C) : Prop :=
  d.toolset = none

instance {C : Type} [DecidableEq C] (d : DynST C) : Decidable d.isEmpty := by
  unfold DynST.isEmpty
  infer_instance

/-- A concrete child-operations oracle where every operation succeeds and
every child advertises the one-entry mapping `[(tool, 0)]`. -/
def opsOk : ChildOps Nat String :=
  ⟨fun _ => .ok (), fun _ => .ok (), fun _ => .ok [("tool", 0)]⟩

/-! ## Dynamic toolset: structural model of `visit_and_replace`

For the tree-transformation claim the toolset tree is embedded as an
inductive type: leaves stand for any non-dynamic toolset (their
`visit_and_replace` is the `AbstractToolset` default), and a dynamic node
carries the `toolset_func` reference (as an opaque number, since only the
reference identity matters), the `per_run_step` flag, the `_id`, and the
`_toolset` / `_run_step` attributes. -/

/-- A toolset tree. `dynEmpty` / `dynBound` are a `DynamicToolset` with
`_toolset` equal to `None` or to a child; both carry `_run_step`. -/
inductive ATS where
  | leaf (tsid : Option String)
  | dynEmpty (funcRef : Nat) (perRunStep : Bool) (tsid : Option String) (runStep : Option Nat)
  | dynBound (funcRef : Nat) (perRunStep : Bool) (tsid : Option String)
      (child : ATS) (runStep : Option Nat)
deriving DecidableEq, Repr

/-- Modelled from the spec: the `AbstractToolset` default of
`visit_and_replace` (the base class is not under `src/`): each node asks
the visitor whether to substitute itself, i.e. it returns `visitor self`.
`DynamicToolset.visit_and_replace` (`_dynamic.py` lines 99-109) falls back
to that default when `_toolset is None`; when bound it builds a fresh
instance with the same `toolset_func`, `per_run_step` and `_id`, sets its
`_toolset` to the recursively visited child and copies `_run_step`. -/
def ATS.visit_and_replace (t : ATS) (visitor : ATS → ATS) : ATS :=
  match t with
  | .leaf i => visitor (.leaf i)
  | .dynEmpty f p i rs => visitor (.dynEmpty f p i rs)
  | .dynBound f p i child rs => .dynBound f p i (child.visit_and_replace visitor) rs

/-- The `toolset_func` reference of a dynamic node. -/
def ATS.funcRefOf : ATS → Option Nat
  | .leaf _ => none
  | .dynEmpty f _ _ _ => some f
  | .dynBound f _ _ _ _ => some f

/-- The `per_run_step` flag of a dynamic node. -/
def ATS.perRunStepOf : ATS → Option Bool
  | .leaf _ => none
  | .dynEmpty _ p _ _ => some p
  | .dynBound _ p _ _ _ => some p

/-- The `_id` of a node. -/
def ATS.idOf : ATS → Option String
  | .leaf i => i
  | .dynEmpty _ _ i _ => i
  | .dynBound _ _ i _ _ => i

/-- The `_toolset` attribute of a dynamic node (`none` when unbound or not
a dynamic node). -/
def ATS.boundChild : ATS → Option ATS
  | .leaf _ => none
  | .dynEmpty _ _ _ _ => none
  | .dynBound _ _ _ c _ => some c

/-- The `_run_step` attribute of a dynamic node. -/
def ATS.boundStep : ATS → Option Nat
  | .leaf _ => none
  | .dynEmpty _ _ _ rs => rs
  | .dynBound _ _ _ _ rs => rs

/-! ## Temporal durable function-toolset adapter

Embedding of `durable_exec/temporal/_function_toolset.py`. Type
parameters: `D` the dependency payload type, `R` the tool result type,
`S` the transport-safe serialized run context. The wrapped
`FunctionToolset`, the `TemporalRunContext` serializer pair and the
`TemporalWrapperToolset` base class are not under `src/`, so they enter
the model as oracle fields or are modelled from the spec where noted. -/

/-- Exceptions raised by the Python code: `UserError` (the configuration
error type pydantic-ai surfaces to the caller and registers as
non-retryable with Temporal) versus any other exception. -/
inductive PyErr where
  | userError (msg : String)
  | other (msg : String)
deriving DecidableEq, Repr

/-- Tool call arguments (`tool_args` dict). -/
abbrev ToolArgs : Type := List (String × String)

/-- A `FunctionToolsetTool` descriptor: only the fields the dispatch logic
reads are modelled (`is_async`, plus an opaque identifier). -/
structure FunctionToolsetTool where
  is_async : Bool
  descId : Nat
deriving DecidableEq, Repr

/-- The run context: the fields this subsystem reads are the dependency
payload `deps` and an opaque remainder `data` standing for everything else
(`run_step`, messages, ...). -/
structure RunCtx (D : Type) where
  deps : D
  data : Nat
deriving DecidableEq, Repr

/-- An `ActivityConfig` is a Temporal options dict; modelled as an
association list from option name to an opaque value. -/
abbrev ActivityConfig : Type := List (String × Nat)

/-- One value of the `tool_activity_config` dict: either an
`ActivityConfig` or the explicit `False` marker disabling the activity. -/
inductive ToolCfgEntry where
  | disabled
  | config (c : ActivityConfig)
deriving DecidableEq, Repr

/-- Association-list lookup, the embedding of a Python dict read. -/
def alistLookup {A : Type} (l : List (String × A)) (k : String) : Option A :=
  (l.find? (fun p => p.1 == k)).map (fun p => p.2)

/-- Python dict union `a | b` (keys of `b` win), observed through lookups:
the entries of `a` whose key `b` also has are dropped. -/
def dictUnion (a b : ActivityConfig) : ActivityConfig :=
  a.filter (fun p => (alistLookup b p.1).isNone) ++ b

/-- Single quote character, used for the Python `repr` of strings. -/
def sqChar : Char := Char.ofNat 39

/-- Python `repr` of a string, as interpolated by `f-strings` with `!r`
(modelled for strings without quotes or escapes, which tool and toolset
ids are). -/
def pyRepr (s : String) : String :=
  String.singleton sqChar ++ s ++ String.singleton sqChar

/-- The wrapped `FunctionToolset`, abstracted to the two operations the
adapter invokes on it, plus its `id` (the adapter requires an id to name
its activity). `call_tool` on the wrapper outside a workflow and in the
activity body delegates to `callTool`; the activity body derives the tool
catalog from `getTools`. -/
structure WrappedToolset (D R : Type) where
  wid : String
  getTools : RunCtx D → Except PyErr (List (String × FunctionToolsetTool))
  callTool : String → ToolArgs → RunCtx D → FunctionToolsetTool → Except PyErr R

/-- The `TemporalFunctionToolset` after `__init__`: the wrapped toolset,
the two configuration fields, the `run_context_type` serializer pair
(modelled from the spec: `TemporalRunContext.serialize_run_context` /
`deserialize_run_context` turn a run context into a transport-safe value
and back, rebuilding it around a freshly supplied dependency payload), and
the registered activity name. -/
structure TemporalFunctionToolset (D R S : Type) where
  wrapped : WrappedToolset D R
  activity_config : ActivityConfig
  tool_activity_config : List (String × ToolCfgEntry)
  serialize_run_context : RunCtx D → S
  deserialize_run_context : S → D → RunCtx D
  activityName : String

/-- Embedding of `TemporalFunctionToolset.__init__` (lines 28-61): stores
the configuration and registers the single activity under the name
`activity_name_prefix + "__toolset__" + self.id + "__call_tool"`, where
`self.id` is the wrapped toolset id (modelled from the spec: the wrapper
base class forwards `id` to the wrapped toolset). -/
def TemporalFunctionToolset.make {D R S : Type} (toolset : WrappedToolset D R)
    ( activity_name_prefix : String) (cfg : ActivityConfig)
    (toolCfg : List (String × ToolCfgEntry)) (ser : RunCtx D → S)
    (deser : S → D → RunCtx D) : TemporalFunctionToolset D R S :=
  { wrapped := toolset
    activity_config := cfg
    tool_activity_config := toolCfg
    serialize_run_context := ser
    deserialize_run_context := deser
    activityName := activity_name_prefix ++ "__toolset__" ++ toolset.wid ++ "__call_tool" }

/-- Embedding of the `temporal_activities` property (lines 63-65): the one
registered activity, represented by its registered name. -/
def TemporalFunctionToolset.temporal_activities {D R S : Type}
    (t : TemporalFunctionToolset D R S) : List String :=
  [t.activityName]

/-- The parameters the workflow side hands to the activity
(`_CallToolParams`, lines 19-24). -/
structure CallToolParams (S : Type) where
  name : String
  tool_args : ToolArgs
  serialized_run_context : S

/-- Embedding of the activity body `call_tool_activity` (lines 43-54):
reconstruct the run context from the serialized form and the fresh
dependency payload, fetch the wrapped toolset tools for it, and either
fail with the catalog-stability `UserError` when the name is absent
(the `KeyError` branch) or delegate to the wrapped `call_tool`. -/
def TemporalFunctionToolset.call_tool_activity {D R S : Type}
    (t : TemporalFunctionToolset D R S) (params : CallToolParams S) (deps : D) :
    Except PyErr R :=
  let ctx := t.deserialize_run_context params.serialized_run_context deps
  match t.wrapped.getTools ctx with
  | .error e => .error e
  | .ok tools =>
    match alistLookup tools params.name with
    | none =>
      .error (.userError ("Tool " ++ pyRepr params.name ++ " not found in toolset "
        ++ pyRepr t.wrapped.wid
        ++ ". Removing or renaming tools during an agent run is not supported with Temporal."))
    | some tool => t.wrapped.callTool params.name params.tool_args ctx tool

/-- Observable steps of one `TemporalFunctionToolset.call_tool` dispatch. -/
inductive DispatchAct where
  | delegatedToWrapped
  | serializedContext
  | executedActivity
deriving DecidableEq, Repr

/-- Outcome of one `TemporalFunctionToolset.call_tool` dispatch: either a
value returned or exception raised in-process, or the single activity
invocation handed to the Temporal engine, carrying the tool name, the
arguments, the serialized context, the separately passed dependency
payload, and the merged activity configuration. -/
inductive DispatchOutcome (D R S : Type) where
  | done (r : Except PyErr R)
  | activityInvoked (name : String) (args : ToolArgs) (sctx : S) (deps : D)
      (cfg : ActivityConfig)

/-- Embedding of `TemporalFunctionToolset.call_tool` (lines 67-92).
Outside a workflow it delegates to the wrapped toolset (modelled from the
spec for the `TemporalWrapperToolset` base class, whose `call_tool`
forwards to the wrapped toolset). Inside a workflow it reads
`tool_activity_config.get(name, default empty dict)`; the explicit `False`
marker either raises the configuration `UserError` for a non-async tool
or delegates in-process; otherwise it merges the configurations,
serializes the run context and executes the registered activity. -/
def TemporalFunctionToolset.call_tool {D R S : Type}
    (t : TemporalFunctionToolset D R S) (in_workflow : Bool) (name : String)
    (tool_args : ToolArgs) (ctx : RunCtx D) (tool : FunctionToolsetTool) :
    DispatchOutcome D R S × List DispatchAct :=
  if in_workflow = false then
    (.done (t.wrapped.callTool name tool_args ctx tool), [.delegatedToWrapped])
  else
    match (alistLookup t.tool_activity_config name).getD (.config []) with
    | .disabled =>
      if tool.is_async = false then
        (.done (.error (.userError ("Temporal activity config for tool " ++ pyRepr name
          ++ " has been explicitly set to `False` (activity disabled), "
          ++ "but non-async tools are run in threads which are not supported "
          ++ "outside of an activity. Make the tool function async instead."))), [])
      else
        (.done (t.wrapped.callTool name tool_args ctx tool), [.delegatedToWrapped])
    | .config toolCfg =>
      let merged := dictUnion t.activity_config toolCfg
      let sctx := t.serialize_run_context ctx
      (.activityInvoked name tool_args sctx ctx.deps merged,
        [.serializedContext, .executedActivity])

/-! ## JSON decode-error formatter

Embedding of `_json_error_formatter.py`. A `json.JSONDecodeError` carries
`msg`, `doc`, `pos` and the derived `lineno` / `colno`; the formatter reads
all five, so they are fields here (integers as `Int`, matching Python
ints). String splitting is done over the character list so that every
definition reduces in the kernel. -/

/-- Newline character. -/
def nlChar : Char := Char.ofNat 10

/-- Carriage-return character. -/
def crChar : Char := Char.ofNat 13

/-- Space character. -/
def spChar : Char := Char.ofNat 32

/-- A run of `n` spaces, the embedding of a Python string multiplied by a
space. -/
def mkSpaces (n : Nat) : String :=
  String.mk (List.replicate n spChar)

/-- Helper for `pySplitlines`: split a character list at line boundaries,
`acc` holding the characters of the current line in reverse. -/
def splitlinesAux (cs : List Char) (acc : List Char) : List String :=
  match cs with
  | [] => if acc.isEmpty then [] else [String.mk acc.reverse]
  | c :: rest =>
    if c = nlChar then String.mk acc.reverse :: splitlinesAux rest []
    else if c = crChar then
      match rest with
      | c2 :: rest2 =>
        if c2 = nlChar then String.mk acc.reverse :: splitlinesAux rest2 []
        else String.mk acc.reverse :: splitlinesAux (c2 :: rest2) []
      | [] => [String.mk acc.reverse]
    else splitlinesAux rest (c :: acc)

/-- Python `str.splitlines()` restricted to the line boundaries that occur
in JSON documents (`\n`, `\r\n`, `\r`): no entry for a trailing newline,
and the empty string yields the empty list. -/
def pySplitlines (s : String) : List String :=
  splitlinesAux s.data []

/-- The fields of a `json.JSONDecodeError` that the formatter reads. -/
structure JSONDecodeError where
  msg : String
  doc : String
  pos : Int
  lineno : Int
  colno : Int
deriving DecidableEq, Repr

/-- The `JsonErrorInfo` dataclass (`_json_error_formatter.py` lines 10-20). -/
structure JsonErrorInfo where
  msg : String
  pos : Int
  lineno : Int
  colno : Int
  doc : String
  error_line : String
  lines : List String
deriving DecidableEq, Repr

/-- Embedding of `extract_json_error_info` (lines 23-48): split the
document into lines and pick out the 1-based `lineno` line when it is in
range (`error.doc or empty` equals `error.doc` since `doc` is a string). -/
def extract_json_error_info (error : JSONDecodeError) : JsonErrorInfo :=
  let doc := error.doc
  let lines := pySplitlines doc
  let error_line :=
    if 1 ≤ error.lineno ∧ error.lineno ≤ (lines.length : Int) then
      lines.getD (error.lineno - 1).toNat ""
    else ""
  { msg := error.msg
    pos := error.pos
    lineno := error.lineno
    colno := error.colno
    doc := doc
    error_line := error_line
    lines := lines }

/-- Python `str.join` with a newline separator, the embedding of
the `\n`.join call on the four parts. -/
def joinNl : List String → String
  | [] => ""
  | [p] => p
  | p :: rest => p ++ "\n" ++ joinNl rest

/-- Embedding of `format_json_error_visual` (lines 51-80): fall back to
the single-line form when the document is empty or `lineno` is out of
range; otherwise emit the four parts with the caret indented by
`max 0 (colno - 1)` spaces under the four-space-indented source line. -/
def format_json_error_visual (error_info : JsonErrorInfo) : String :=
  if error_info.doc = "" then
    error_info.msg ++ " at position " ++ toString error_info.pos
  else if error_info.lineno < 1 ∨ error_info.lineno > (error_info.lines.length : Int) then
    error_info.msg ++ " at position " ++ toString error_info.pos
  else
    let caret_pos := (max 0 (error_info.colno - 1)).toNat
    let visual_indicator := mkSpaces caret_pos ++ "^"
    joinNl
      ["JSON parsing error, line " ++ toString error_info.lineno ++ ":",
       "    " ++ error_info.error_line,
       "    " ++ visual_indicator,
       "JSONDecodeError: " ++ error_info.msg]

/-- Embedding of `format_json_decode_error` (lines 83-93). -/
def format_json_decode_error (error : JSONDecodeError) : String :=
  format_json_error_visual (extract_json_error_info error)

/-- Count of leading spaces of a string. -/
def leadingSpaces (s : String) : Nat :=
  (s.data.takeWhile (fun c => c = spChar)).length

/-! ## Concrete instances used by witnesses and counterexamples -/

/-- Number of factory invocations recorded in a trace. -/
def countFactoryCalls {C : Type} (t : List (Ev C)) : Nat :=
  (t.filter (fun e => match e with | .factoryCall => true | _ => false)).length

/-- A concrete wrapped function toolset with one async tool `t1` and one
sync tool `t2`; `call_tool` returns the descriptor id plus the deps. -/
def wrappedW : WrappedToolset Nat Nat :=
  { wid := "weather"
    getTools := fun _ => .ok [("t1", ⟨true, 7⟩), ("t2", ⟨false, 8⟩)]
    callTool := fun _ _ ctx tool => .ok (tool.descId + ctx.deps) }

/-- A concrete adapter over `wrappedW` whose per-tool configuration
disables the activity for `t1`. -/
def tftW : TemporalFunctionToolset Nat Nat Nat :=
  TemporalFunctionToolset.make wrappedW "agent" [("opt", 1)]
    [("t1", .disabled)] (fun ctx => ctx.data) (fun s d => ⟨d, s⟩)

/-- A concrete decode error whose caret the claim under-indents: column 16
on the only line of a seventeen-character document. -/
def jeComma : JSONDecodeError :=
  ⟨"Expecting property name enclosed in double quotes",
   "\x7b\"key\": \"value\",\x7d", 15, 1, 16⟩

/-- A concrete two-line decode error used as a witness input. -/
def jeMulti : JSONDecodeError :=
  ⟨"Invalid syntax", "\x7b\n  \"ke", 20, 2, 5⟩

/-- A concrete decode error with an empty document. -/
def jeEmptyDoc : JSONDecodeError :=
  ⟨"No JSON object could be decoded", "", 0, 1, 1⟩

/-- C1 counterexample: a bound `per_run_step` node asked for tools at a new
run step whose factory raises. The old child is exited (first trace event),
the exception propagates, yet the node still references the old child with
the old bound step: it does not end in `Empty`. -/
theorem C1_counterexample :
    (DynST.get_tools ⟨true, some 0, some 0⟩ opsOk (.error "boom") 1).result
        = .error "boom" ∧
    (DynST.get_tools ⟨true, some 0, some 0⟩ opsOk (.error "boom") 1).trace
        = [.exitChild 0, .factoryCall] ∧
    (DynST.get_tools ⟨true, some 0, some 0⟩ opsOk (.error "boom") 1).state
        = ⟨true, some 0, some 0⟩ ∧
    ¬ (DynST.get_tools ⟨true, some 0, some 0⟩ opsOk (.error "boom") 1).state.isEmpty := by
  refine ⟨rfl, rfl, rfl, ?_⟩
  decide

/-- C1 (amended): when a bound node rebuilds and the factory raises (or the
awaited factory result fails), or entering the new child raises, after the
old child has been torn down, the exception propagates to the caller of
`get_tools` and the node is left exactly as it was: still referencing the
old, already-exited child and the old bound step (a half-bound state), not
`Empty`. -/
theorem C1_failure_after_teardown_keeps_old_child {C E : Type} [DecidableEq C]
    (ops : ChildOps C E) (d : DynST C) (old : C) (factory : Except E (Option C))
    (step : Nat)
    (hbound : d.toolset = some old)
    (hper : d.perRunStep = true)
    (hstep : ¬ d.runStep = some step)
    (hexit : ops.aexit old = .ok ()) :
    (∀ e, factory = .error e →
      d.get_tools ops factory step = ⟨.error e, d, [.exitChild old, .factoryCall]⟩) ∧
    (∀ c e, factory = .ok (some c) → ops.aenter c = .error e →
      d.get_tools ops factory step
        = ⟨.error e, d, [.exitChild old, .factoryCall, .enterChild c]⟩) := by
  constructor
  · intro e hf
    subst hf
    unfold DynST.get_tools
    rw [if_pos (Or.inr ⟨hper, hstep⟩)]
    simp only [hbound, hexit]
  · intro c e hf henter
    subst hf
    unfold DynST.get_tools
    rw [if_pos (Or.inr ⟨hper, hstep⟩)]
    simp only [hbound, hexit, henter]

/-- C1 witness: the amended theorem applied at the concrete failing run. -/
theorem C1_witness :
    (⟨true, some 0, some 0⟩ : DynST Nat).toolset = some 0 ∧
    (⟨true, some 0, some 0⟩ : DynST Nat).perRunStep = true ∧
    ¬ (⟨true, some 0, some 0⟩ : DynST Nat).runStep = some 1 ∧
    opsOk.aexit 0 = .ok () ∧
    DynST.get_tools ⟨true, some 0, some 0⟩ opsOk (.error "kaput") 1
      = ⟨.error "kaput", ⟨true, some 0, some 0⟩, [.exitChild 0, .factoryCall]⟩ :=
  ⟨rfl, rfl, by decide, rfl,
    (C1_failure_after_teardown_keeps_old_child opsOk ⟨true, some 0, some 0⟩ 0
      (.error "kaput") 1 rfl rfl (by decide) rfl).1 "kaput" rfl⟩

/-- C2 counterexample: a `per_run_step` node starting `Empty` whose factory
yields nothing. Two consecutive `get_tools` calls at the same run step
invoke the factory twice, not once: after the first call `_toolset` is
still `None`, so the guard fires again. -/
theorem C2_counterexample :
    countFactoryCalls
        ((DynST.get_tools (C := Nat) ⟨true, none, none⟩ opsOk (.ok none) 0).trace
          ++ ((DynST.get_tools (C := Nat) ⟨true, none, none⟩ opsOk (.ok none) 0).state.get_tools
                opsOk (.ok none) 0).trace) = 2 ∧
    ¬ countFactoryCalls
        ((DynST.get_tools (C := Nat) ⟨true, none, none⟩ opsOk (.ok none) 0).trace
          ++ ((DynST.get_tools (C := Nat) ⟨true, none, none⟩ opsOk (.ok none) 0).state.get_tools
                opsOk (.ok none) 0).trace) = 1 := by
  constructor
  · rfl
  · decide

/-- C2 (amended): starting from `Empty`, when the factory yields a toolset
(and entering it succeeds), two consecutive `get_tools` calls at the same
run step on a `per_run_step` node invoke the factory exactly once in
total: the second call (whatever its factory would return) reuses the
bound child, leaves the state untouched and returns the same mapping,
namely the tools of the bound child. -/
theorem C2_second_call_same_step_reuses_child {C E : Type} [DecidableEq C]
    (ops : ChildOps C E) (d : DynST C) (c : C) (factory2 : Except E (Option C))
    (step : Nat)
    (hempty : d.toolset = none)
    (hper : d.perRunStep = true)
    (henter : ops.aenter c = .ok ()) :
    countFactoryCalls
        ((d.get_tools ops (.ok (some c)) step).trace
          ++ ((d.get_tools ops (.ok (some c)) step).state.get_tools ops factory2 step).trace)
      = 1 ∧
    (d.get_tools ops (.ok (some c)) step).state.toolset = some c ∧
    ((d.get_tools ops (.ok (some c)) step).state.get_tools ops factory2 step).state
      = (d.get_tools ops (.ok (some c)) step).state ∧
    (d.get_tools ops (.ok (some c)) step).result = ops.getTools c ∧
    ((d.get_tools ops (.ok (some c)) step).state.get_tools ops factory2 step).result
      = ops.getTools c := by
  have h1 : d.get_tools ops (.ok (some c)) step
      = ⟨ops.getTools c, { d with toolset := some c, runStep := some step },
          [.factoryCall, .enterChild c, .childGetTools c]⟩ := by
    unfold DynST.get_tools
    rw [if_pos (Or.inl hempty)]
    simp only [hempty, henter]
  have h2 : ({ d with toolset := some c, runStep := some step } : DynST C).get_tools
      ops factory2 step = ⟨ops.getTools c, { d with toolset := some c, runStep := some step },
        [.childGetTools c]⟩ := by
    unfold DynST.get_tools
    rw [if_neg]
    simp only [not_or]
    exact ⟨by simp, by simp⟩
  rw [h1, h2]
  refine ⟨rfl, rfl, rfl, rfl, rfl⟩

/-- C2 witness: the amended theorem at a concrete run with child `3`. -/
theorem C2_witness :
    (⟨true, none, none⟩ : DynST Nat).toolset = none ∧
    (⟨true, none, none⟩ : DynST Nat).perRunStep = true ∧
    opsOk.aenter 3 = .ok () ∧
    (countFactoryCalls
        ((DynST.get_tools ⟨true, none, none⟩ opsOk (.ok (some 3)) 2).trace
          ++ ((DynST.get_tools ⟨true, none, none⟩ opsOk (.ok (some 3)) 2).state.get_tools
                opsOk (.ok none) 2).trace) = 1 ∧
      (DynST.get_tools ⟨true, none, none⟩ opsOk (.ok (some 3)) 2).state.toolset = some 3 ∧
      ((DynST.get_tools ⟨true, none, none⟩ opsOk (.ok (some 3)) 2).state.get_tools
          opsOk (.ok none) 2).state
        = (DynST.get_tools ⟨true, none, none⟩ opsOk (.ok (some 3)) 2).state ∧
      (DynST.get_tools ⟨true, none, none⟩ opsOk (.ok (some 3)) 2).result = opsOk.getTools 3 ∧
      ((DynST.get_tools ⟨true, none, none⟩ opsOk (.ok (some 3)) 2).state.get_tools
          opsOk (.ok none) 2).result = opsOk.getTools 3) :=
  ⟨rfl, rfl, rfl,
    C2_second_call_same_step_reuses_child opsOk ⟨true, none, none⟩ 3 (.ok none) 2 rfl rfl rfl⟩

/-- C4 (confirmed): on a bound `per_run_step` node, a `get_tools` call at a
different run step puts the teardown of the old child first in the trace;
every later event (factory invocation, entering or querying the new child)
comes strictly after it, and no other teardown occurs, so at most one
child is live at any instant. -/
theorem C4_teardown_precedes_construction {C E : Type} [DecidableEq C]
    (ops : ChildOps C E) (d : DynST C) (old : C) (factory : Except E (Option C))
    (step : Nat)
    (hbound : d.toolset = some old)
    (hper : d.perRunStep = true)
    (hstep : ¬ d.runStep = some step) :
    ∃ rest, (d.get_tools ops factory step).trace = .exitChild old :: rest ∧
      ∀ c2, Ev.exitChild c2 ∉ rest := by
  unfold DynST.get_tools
  rw [if_pos (Or.inr ⟨hper, hstep⟩)]
  simp only [hbound]
  rcases hex : ops.aexit old with e | u
  · exact ⟨[], by simp [hex], by simp⟩
  · rcases hf : factory with e | _ | c
    · exact ⟨[.factoryCall], by simp [hex, hf], by simp⟩
    · exact ⟨[.factoryCall], by simp [hex, hf], by simp⟩
    · rcases hen : ops.aenter c with e | u2
      · exact ⟨[.factoryCall, .enterChild c], by simp [hex, hf, hen], by simp⟩
      · exact ⟨[.factoryCall, .enterChild c, .childGetTools c],
          by simp [hex, hf, hen], by simp⟩

/-- C4 witness: a concrete rebuild from child `4` at a new run step. -/
theorem C4_witness :
    (⟨true, some 4, some 0⟩ : DynST Nat).toolset = some 4 ∧
    (⟨true, some 4, some 0⟩ : DynST Nat).perRunStep = true ∧
    ¬ (⟨true, some 4, some 0⟩ : DynST Nat).runStep = some 1 ∧
    ∃ rest, (DynST.get_tools ⟨true, some 4, some 0⟩ opsOk (.ok (some 5)) 1).trace
        = .exitChild 4 :: rest ∧ ∀ c2, Ev.exitChild c2 ∉ rest :=
  ⟨rfl, rfl, by decide,
    C4_teardown_precedes_construction opsOk ⟨true, some 4, some 0⟩ 4 (.ok (some 5)) 1
      rfl rfl (by decide)⟩

/-- C7 (confirmed): whenever the rebuild guard fires (the node is `Empty`,
or `per_run_step` is set and the run step changed) and the factory yields
nothing, `get_tools` returns the empty mapping, the node ends with no
bound child, and no child is entered. The teardown of a previously bound
child is assumed to succeed, since an exception there would propagate
before the factory runs. -/
theorem C7_factory_none_gives_empty {C E : Type} [DecidableEq C]
    (ops : ChildOps C E) (d : DynST C) (step : Nat)
    (hguard : d.toolset = none ∨ (d.perRunStep = true ∧ ¬ d.runStep = some step))
    (hexit : ∀ old, d.toolset = some old → ops.aexit old = .ok ()) :
    (d.get_tools ops (.ok none) step).result = .ok [] ∧
    (d.get_tools ops (.ok none) step).state.isEmpty ∧
    ∀ c, Ev.enterChild c ∉ (d.get_tools ops (.ok none) step).trace := by
  unfold DynST.get_tools
  rw [if_pos hguard]
  rcases hb : d.toolset with _ | old
  · exact ⟨by simp [hb], by simp [hb, DynST.isEmpty], by simp [hb]⟩
  · exact ⟨by simp [hb, hexit old hb], by simp [hb, hexit old hb, DynST.isEmpty],
      by simp [hb, hexit old hb]⟩

/-- C7 witness: a bound node at a stale run step whose factory yields
nothing. -/
theorem C7_witness :
    ((⟨true, some 6, some 0⟩ : DynST Nat).toolset = none ∨
      ((⟨true, some 6, some 0⟩ : DynST Nat).perRunStep = true ∧
        ¬ (⟨true, some 6, some 0⟩ : DynST Nat).runStep = some 3)) ∧
    (∀ old, (⟨true, some 6, some 0⟩ : DynST Nat).toolset = some old →
      opsOk.aexit old = .ok ()) ∧
    ((DynST.get_tools ⟨true, some 6, some 0⟩ opsOk (.ok none) 3).result = .ok [] ∧
      (DynST.get_tools ⟨true, some 6, some 0⟩ opsOk (.ok none) 3).state.isEmpty ∧
      ∀ c, Ev.enterChild c ∉ (DynST.get_tools ⟨true, some 6, some 0⟩ opsOk (.ok none) 3).trace) :=
  ⟨Or.inr ⟨rfl, by decide⟩, fun old _ => rfl,
    C7_factory_none_gives_empty opsOk ⟨true, some 6, some 0⟩ 3
      (Or.inr ⟨rfl, by decide⟩) (fun old _ => rfl)⟩

/-- C9 (confirmed): `visit_and_replace` on a bound dynamic node yields a
dynamic node with the same `toolset_func` reference, `per_run_step` flag
and `_id`, the same bound step, and as child the result of recursively
visiting the original child with the same visitor. The original tree value
is untouched (the embedding is pure, mirroring the fresh instance the code
builds). -/
theorem C9_visit_and_replace_bound (f : Nat) (p : Bool) (i : Option String)
    (child : ATS) (rs : Option Nat) (v : ATS → ATS) :
    ((ATS.dynBound f p i child rs).visit_and_replace v).funcRefOf = some f ∧
    ((ATS.dynBound f p i child rs).visit_and_replace v).perRunStepOf = some p ∧
    ((ATS.dynBound f p i child rs).visit_and_replace v).idOf = i ∧
    ((ATS.dynBound f p i child rs).visit_and_replace v).boundStep = rs ∧
    ((ATS.dynBound f p i child rs).visit_and_replace v).boundChild
      = some (child.visit_and_replace v) :=
  ⟨rfl, rfl, rfl, rfl, rfl⟩

/-- C3 (confirmed): inside a workflow, when the per-tool activity
configuration for the name is the explicit `False` marker, a synchronous
tool raises the configuration `UserError` naming the tool with an empty
action trace (no context serialization, no activity execution), while an
asynchronous tool is delegated in-process to the wrapped toolset. -/
theorem C3_disabled_marker_dispatch {D R S : Type}
    (t : TemporalFunctionToolset D R S) (name : String) (args : ToolArgs)
    (ctx : RunCtx D) (tool : FunctionToolsetTool)
    (hcfg : alistLookup t.tool_activity_config name = some .disabled) :
    (tool.is_async = false →
      t.call_tool true name args ctx tool
        = (.done (.error (.userError ("Temporal activity config for tool " ++ pyRepr name
            ++ " has been explicitly set to `False` (activity disabled), "
            ++ "but non-async tools are run in threads which are not supported "
            ++ "outside of an activity. Make the tool function async instead."))), [])) ∧
    (tool.is_async = true →
      t.call_tool true name args ctx tool
        = (.done (t.wrapped.callTool name args ctx tool), [.delegatedToWrapped])) := by
  constructor
  · intro hsync
    unfold TemporalFunctionToolset.call_tool
    simp [hcfg, hsync]
  · intro hasync
    unfold TemporalFunctionToolset.call_tool
    simp [hcfg, hasync]

/-- C3 witness: the concrete adapter `tftW` with activity disabled for
`t1`, called on a synchronous and on an asynchronous descriptor. -/
theorem C3_witness :
    alistLookup tftW.tool_activity_config "t1" = some .disabled ∧
    (⟨false, 8⟩ : FunctionToolsetTool).is_async = false ∧
    tftW.call_tool true "t1" [] ⟨1, 2⟩ ⟨false, 8⟩
      = (.done (.error (.userError ("Temporal activity config for tool " ++ pyRepr "t1"
          ++ " has been explicitly set to `False` (activity disabled), "
          ++ "but non-async tools are run in threads which are not supported "
          ++ "outside of an activity. Make the tool function async instead."))), []) ∧
    tftW.call_tool true "t1" [] ⟨1, 2⟩ ⟨true, 7⟩
      = (.done (tftW.wrapped.callTool "t1" [] ⟨1, 2⟩ ⟨true, 7⟩), [.delegatedToWrapped]) :=
  ⟨rfl, rfl,
    (C3_disabled_marker_dispatch tftW "t1" [] ⟨1, 2⟩ ⟨false, 8⟩ rfl).1 rfl,
    (C3_disabled_marker_dispatch tftW "t1" [] ⟨1, 2⟩ ⟨true, 7⟩ rfl).2 rfl⟩

/-- C5 (confirmed): outside a workflow, `call_tool` is exactly the wrapped
toolset `call_tool` on the same name, arguments, context and descriptor:
the same value or exception, with nothing but the delegation in the
action trace. -/
theorem C5_outside_workflow_delegates {D R S : Type}
    (t : TemporalFunctionToolset D R S) (in_workflow : Bool) (name : String)
    (args : ToolArgs) (ctx : RunCtx D) (tool : FunctionToolsetTool)
    (h : in_workflow = false) :
    t.call_tool in_workflow name args ctx tool
      = (.done (t.wrapped.callTool name args ctx tool), [.delegatedToWrapped]) := by
  subst h
  rfl

/-- C5 witness: the concrete adapter outside a workflow. -/
theorem C5_witness :
    (false = false) ∧
    tftW.call_tool false "t2" [("x", "1")] ⟨1, 2⟩ ⟨false, 8⟩
      = (.done (tftW.wrapped.callTool "t2" [("x", "1")] ⟨1, 2⟩ ⟨false, 8⟩),
          [.delegatedToWrapped]) :=
  ⟨rfl, C5_outside_workflow_delegates tftW false "t2" [("x", "1")] ⟨1, 2⟩ ⟨false, 8⟩ rfl⟩

/-- C6 (confirmed): the activity body reconstructs the run context from the
serialized form and the fresh dependency payload; when the tool name is
absent from the wrapped toolset tools derived from that context it fails
with the catalog-stability `UserError`, and when present it delegates to
the wrapped `call_tool` with the reconstructed context, the given
arguments and the looked-up descriptor. -/
theorem C6_activity_body_dispatch {D R S : Type}
    (t : TemporalFunctionToolset D R S) (params : CallToolParams S) (deps : D)
    (tools : List (String × FunctionToolsetTool))
    (hget : t.wrapped.getTools (t.deserialize_run_context params.serialized_run_context deps)
      = .ok tools) :
    (alistLookup tools params.name = none →
      t.call_tool_activity params deps
        = .error (.userError ("Tool " ++ pyRepr params.name ++ " not found in toolset "
            ++ pyRepr t.wrapped.wid
            ++ ". Removing or renaming tools during an agent run is not supported with Temporal."))) ∧
    (∀ tool, alistLookup tools params.name = some tool →
      t.call_tool_activity params deps
        = t.wrapped.callTool params.name params.tool_args
            (t.deserialize_run_context params.serialized_run_context deps) tool) := by
  constructor
  · intro habsent
    unfold TemporalFunctionToolset.call_tool_activity
    simp [hget, habsent]
  · intro tool hpresent
    unfold TemporalFunctionToolset.call_tool_activity
    simp [hget, hpresent]

/-- C6 witness: the concrete adapter, once with a present name and once
with an absent one. -/
theorem C6_witness :
    tftW.wrapped.getTools (tftW.deserialize_run_context 5 9)
      = .ok [("t1", ⟨true, 7⟩), ("t2", ⟨false, 8⟩)] ∧
    alistLookup [(("t1" : String), (⟨true, 7⟩ : FunctionToolsetTool)), ("t2", ⟨false, 8⟩)] "t1"
      = some ⟨true, 7⟩ ∧
    tftW.call_tool_activity ⟨"t1", [], 5⟩ 9
      = tftW.wrapped.callTool "t1" [] (tftW.deserialize_run_context 5 9) ⟨true, 7⟩ ∧
    alistLookup [(("t1" : String), (⟨true, 7⟩ : FunctionToolsetTool)), ("t2", ⟨false, 8⟩)] "gone"
      = none ∧
    tftW.call_tool_activity ⟨"gone", [], 5⟩ 9
      = .error (.userError ("Tool " ++ pyRepr "gone" ++ " not found in toolset "
          ++ pyRepr tftW.wrapped.wid
          ++ ". Removing or renaming tools during an agent run is not supported with Temporal.")) :=
  ⟨rfl, rfl,
    (C6_activity_body_dispatch tftW ⟨"t1", [], 5⟩ 9 [("t1", ⟨true, 7⟩), ("t2", ⟨false, 8⟩)]
      rfl).2 ⟨true, 7⟩ rfl,
    rfl,
    (C6_activity_body_dispatch tftW ⟨"gone", [], 5⟩ 9 [("t1", ⟨true, 7⟩), ("t2", ⟨false, 8⟩)]
      rfl).1 rfl⟩

/-- C8 (confirmed): a constructed adapter registers exactly one activity,
and its name is the prefix, the literal `__toolset__`, the wrapped toolset
id, and the literal `__call_tool`, in that order. -/
theorem C8_single_deterministically_named_activity {D R S : Type}
    (toolset : WrappedToolset D R) (nmPre : String) (cfg : ActivityConfig)
    (toolCfg : List (String × ToolCfgEntry)) (ser : RunCtx D → S)
    (deser : S → D → RunCtx D) :
    (TemporalFunctionToolset.make toolset nmPre cfg toolCfg ser deser).temporal_activities.length
      = 1 ∧
    (TemporalFunctionToolset.make toolset nmPre cfg toolCfg ser deser).temporal_activities
      = [nmPre ++ "__toolset__" ++ toolset.wid ++ "__call_tool"] :=
  ⟨rfl, rfl⟩

/-- C10 counterexample: at column 16 on a one-line document, the caret line
of the formatted output has 19 leading spaces (the four-space indent plus
fifteen), not `max 0 (colno - 1) = 15` spaces before the caret. -/
theorem C10_counterexample :
    jeComma.doc ≠ "" ∧ jeComma.lineno = 1 ∧ jeComma.colno = 16 ∧
    (pySplitlines (format_json_decode_error jeComma)).getD 2 ""
      = mkSpaces 19 ++ "^" ∧
    leadingSpaces ((pySplitlines (format_json_decode_error jeComma)).getD 2 "")
      ≠ (max 0 (jeComma.colno - 1)).toNat := by
  refine ⟨by decide, rfl, rfl, rfl, by decide⟩

/-- C10 (amended): when the document is empty or the reported line number
is below 1 or beyond the number of document lines,
`format_json_decode_error` is exactly the single-line message and
position; otherwise it is the four parts joined by newlines, where the
source line and the caret line both carry a four-space indent, so the
caret is preceded by 4 + max 0 (colno - 1) spaces and sits max 0
(colno - 1) columns into the equally indented source line. -/
theorem C10_formatter_output (e : JSONDecodeError) :
    ((e.doc = "" ∨ e.lineno < 1 ∨ e.lineno > ((pySplitlines e.doc).length : Int)) →
      format_json_decode_error e = e.msg ++ " at position " ++ toString e.pos) ∧
    (e.doc ≠ "" → 1 ≤ e.lineno → e.lineno ≤ ((pySplitlines e.doc).length : Int) →
      format_json_decode_error e
        = joinNl
            ["JSON parsing error, line " ++ toString e.lineno ++ ":",
             "    " ++ (pySplitlines e.doc).getD (e.lineno - 1).toNat "",
             "    " ++ mkSpaces (max 0 (e.colno - 1)).toNat ++ "^",
             "JSONDecodeError: " ++ e.msg]) := by
  constructor
  · intro h
    by_cases hd : e.doc = ""
    · simp only [format_json_decode_error, extract_json_error_info, format_json_error_visual]
      rw [if_pos hd]
    · have hln : e.lineno < 1 ∨ e.lineno > ((pySplitlines e.doc).length : Int) := by
        rcases h with h | h | h
        · exact absurd h hd
        · exact Or.inl h
        · exact Or.inr h
      simp only [format_json_decode_error, extract_json_error_info, format_json_error_visual]
      rw [if_neg hd, if_pos hln]
  · intro h1 h2 h3
    have hcond : ¬ (e.lineno < 1 ∨ e.lineno > ((pySplitlines e.doc).length : Int)) := by
      rw [not_or]
      exact ⟨not_lt.mpr h2, not_lt.mpr h3⟩
    simp only [format_json_decode_error, extract_json_error_info, format_json_error_visual]
    rw [if_neg h1, if_neg hcond, if_pos ⟨h2, h3⟩]
    simp [String.append_assoc]

/-- C10 witness: the amended theorem at an empty-document error and at a
concrete two-line error. -/
theorem C10_witness :
    (jeEmptyDoc.doc = "" ∨ jeEmptyDoc.lineno < 1 ∨
      jeEmptyDoc.lineno > ((pySplitlines jeEmptyDoc.doc).length : Int)) ∧
    format_json_decode_error jeEmptyDoc
      = jeEmptyDoc.msg ++ " at position " ++ toString jeEmptyDoc.pos ∧
    jeMulti.doc ≠ "" ∧ (1 : Int) ≤ jeMulti.lineno ∧
    jeMulti.lineno ≤ ((pySplitlines jeMulti.doc).length : Int) ∧
    format_json_decode_error jeMulti
      = joinNl
          ["JSON parsing error, line " ++ toString jeMulti.lineno ++ ":",
           "    " ++ (pySplitlines jeMulti.doc).getD (jeMulti.lineno - 1).toNat "",
           "    " ++ mkSpaces (max 0 (jeMulti.colno - 1)).toNat ++ "^",
           "JSONDecodeError: " ++ jeMulti.msg] :=
  ⟨Or.inl rfl, (C10_formatter_output jeEmptyDoc).1 (Or.inl rfl),
    by decide, by decide, by decide,
    (C10_formatter_output jeMulti).2 (by decide) (by decide) (by decide)⟩
